import Mathlib

/-!
Verification of the Tauri shell entry point `UI/src-tauri/src/main.rs`.

The Rust program spawns a backend API child process during setup
(`std::process::Command` in the debug build, the Tauri sidecar API in the
release build), stores the child handle in a managed `ApiState`
(a `Mutex<Option<child>>` slot), and on the window `Destroyed` event takes
the handle out of the state and kills the child (`taskkill /PID pid /T /F`
in the debug build, `CommandChild::kill` in the release build).

Shallow embedding: process identifiers are naturals, the OS process table
is a list of processes with parent pointers, spawn fallibility is an
`Except`-valued parameter (with `expect` panics as `Except.error` carrying
the `expect` message), and the two kill primitives are modelled by their
documented effect on the process table.
-/

/-- Process identifier (`std::process::Child::id` / the pid `taskkill` receives). -/
abbrev Pid := Nat

/-- A running OS process: its pid and the pid of the process that spawned it. -/
structure Proc where
  pid : Pid
  parent : Option Pid
  deriving DecidableEq, Repr

/-- The OS process table. -/
abbrev ProcTable := List Proc

/-- Pids of the processes currently alive in the table. -/
def alivePids (t : ProcTable) : List Pid := t.map Proc.pid

/-- Parent of process `q` in table `t`, if `q` is in the table and has one. -/
def parentOf (t : ProcTable) (q : Pid) : Option Pid :=
  match t.find? (fun pr => pr.pid == q) with
  | some pr => pr.parent
  | none => none

/-- Fuel-bounded test: is `q` equal to `root`, or does the parent chain of
`q` reach `root`? -/
def inTreeFuel : Nat → ProcTable → Pid → Pid → Bool
  | 0, _, _, _ => false
  | n + 1, t, root, q =>
    q == root ||
      match parentOf t q with
      | some pp => inTreeFuel n t root pp
      | none => false

/-- `q` belongs to the process tree rooted at `root` in table `t`
(the spec's "Process tree": the spawned process and any children it
itself spawns). -/
def inTreeOf (t : ProcTable) (root q : Pid) : Bool :=
  inTreeFuel (t.length + 1) t root q

/-- Effect on the process table of `taskkill /PID root /T /F` (debug
build): `/T` force-terminates the whole process tree rooted at `root`. -/
def taskkillTree (t : ProcTable) (root : Pid) : ProcTable :=
  t.filter (fun pr => !(inTreeOf t root pr.pid))

/-- Effect on the process table of `tauri::api::process::CommandChild::kill`
(release build): it terminates the child process itself
(`std::process::Child::kill`, i.e. `TerminateProcess` on Windows), not the
processes the child has spawned. -/
def killOne (t : ProcTable) (p : Pid) : ProcTable :=
  t.filter (fun pr => pr.pid != p)

/-- A spawn command: program (or sidecar name), argument list, and whether
it goes through the Tauri sidecar API. -/
structure SpawnCmd where
  program : String
  args : List String
  isSidecar : Bool
  deriving DecidableEq, Repr

/-- Path join (the Rust `PathBuf::join`), with `/` as separator. -/
def pathJoin (a b : String) : String := a ++ "/" ++ b

/-- The three virtual-env interpreter candidates the dev branch tries, in
order: `api_dir.join(v).join("Scripts").join("python.exe")` for
`v` in `["venv310", "venv", ".venv"]`. -/
def venvCandidates (apiDir : String) : List String :=
  ["venv310", "venv", ".venv"].map
    (fun v => pathJoin (pathJoin (pathJoin apiDir v) "Scripts") "python.exe")

/-- Dev-branch Python resolution: the first candidate that exists on disk
(`.find(|p| p.exists())`), else the bare command name `python`
(`.unwrap_or_else(...)`).  `ex` is the filesystem `Path::exists` oracle. -/
def resolvePython (ex : String → Bool) (apiDir : String) : String :=
  ((venvCandidates apiDir).find? ex).getD "python"

/-- Argument list of the dev-branch spawn:
`-m uvicorn app.main:app --reload --port 8742`. -/
def devSpawnArgs : List String :=
  ["-m", "uvicorn", "app.main:app", "--reload", "--port", "8742"]

/-- The dev-branch spawn command: the resolved Python interpreter running
uvicorn, in the `API/` directory. -/
def devSpawnCmd (python : String) : SpawnCmd :=
  { program := python, args := devSpawnArgs, isSidecar := false }

/-- The release-branch spawn command: the bundled sidecar `axiome-api`,
launched through `Command::new_sidecar` with no arguments. -/
def releaseSpawnCmd : SpawnCmd :=
  { program := "axiome-api", args := [], isSidecar := true }

/-- First argument following `key` in an argument list (used to read the
`--port` instruction off a spawn command). -/
def argAfter (key : String) : List String → Option String
  | [] => none
  | a :: rest => if a = key then rest.head? else argAfter key rest

/-- The shell state: the `ApiState` mutex slot (the `Option` child handle,
identified by the child's pid) together with the OS process table. -/
structure Sys where
  tracked : Option Pid
  procs : ProcTable
  deriving DecidableEq, Repr

/-- Dev-branch `setup` body: build the spawn command from the resolved
Python interpreter, spawn it (`.spawn().expect(...)`), and store the child
in the `ApiState` slot.  Returns the spawned commands and either the new
state or the `expect` panic message. -/
def devSetup (ex : String → Bool) (apiDir : String)
    (spawn : SpawnCmd → Except String Pid) (s : Sys) :
    List SpawnCmd × Except String Sys :=
  let cmd := devSpawnCmd (resolvePython ex apiDir)
  match spawn cmd with
  | .error _ => ([cmd], .error "Failed to start API server. Is Python venv set up?")
  | .ok pid => ([cmd], .ok { s with tracked := some pid })

/-- Release-branch `setup` body: `Command::new_sidecar("axiome-api")`
(which can fail), then `.spawn()` (which can fail), then store the
`CommandChild` handle in the `ApiState` slot.  The log-forwarding async
task spawns no OS process and is not modelled. -/
def releaseSetup (create : Except String Unit)
    (spawn : SpawnCmd → Except String Pid) (s : Sys) :
    List SpawnCmd × Except String Sys :=
  match create with
  | .error _ => ([], .error "failed to create sidecar command")
  | .ok _ =>
    match spawn releaseSpawnCmd with
    | .error _ => ([releaseSpawnCmd], .error "failed to spawn sidecar")
    | .ok pid => ([releaseSpawnCmd], .ok { s with tracked := some pid })

/-- The window events the handler distinguishes: `WindowEvent::Destroyed`
versus everything else. -/
inductive WinEvent
  | Destroyed
  | Other
  deriving DecidableEq, Repr

/-- What one run of the window-event handler did: the resulting state and
the pid a kill command was issued for, if any. -/
structure HandlerOut where
  sys : Sys
  killed : Option Pid
  deriving DecidableEq, Repr

/-- Dev-branch `on_window_event` handler: on `Destroyed`, take the child
out of the mutex (`.take()`), and if one was there run
`taskkill /PID pid /T /F`.  `ok` is whether the `taskkill` invocation
succeeds; its result is discarded (`let _ = ... .output()`), so the
handler returns normally either way. -/
def devOnWindowEvent (ok : Bool) (e : WinEvent) (s : Sys) : HandlerOut :=
  match e with
  | .Destroyed =>
    match s.tracked with
    | none => { sys := s, killed := none }
    | some p =>
      { sys := { tracked := none
                 procs := if ok then taskkillTree s.procs p else s.procs }
        killed := some p }
  | .Other => { sys := s, killed := none }

/-- Release-branch `on_window_event` handler: same take-then-kill shape,
with `CommandChild::kill`; the kill result is discarded (`let _ = ...`). -/
def relOnWindowEvent (ok : Bool) (e : WinEvent) (s : Sys) : HandlerOut :=
  match e with
  | .Destroyed =>
    match s.tracked with
    | none => { sys := s, killed := none }
    | some p =>
      { sys := { tracked := none
                 procs := if ok then killOne s.procs p else s.procs }
        killed := some p }
  | .Other => { sys := s, killed := none }

/-- Lifecycle phase: before or after the `setup` hook has run. -/
inductive Phase
  | boot
  | running
  deriving DecidableEq, Repr

/-- The whole app: lifecycle phase plus the shell state. -/
structure App where
  phase : Phase
  sys : Sys
  deriving DecidableEq, Repr

/-- Number of child handles held in the `ApiState` slot. -/
def trackedCount : Option Pid → Nat
  | none => 0
  | some _ => 1

/-- One lifecycle step of the app: `setup` runs once from the boot phase
(either branch), window events are handled while running, and the
environment may change the OS process table (e.g. the child spawning its
own children) without touching the `ApiState` slot. -/
inductive AppStep : App → App → Prop
  | setupDev (ex : String → Bool) (apiDir : String)
      (spawn : SpawnCmd → Except String Pid) (s res : Sys)
      (h : (devSetup ex apiDir spawn s).2 = .ok res) :
      AppStep ⟨.boot, s⟩ ⟨.running, res⟩
  | setupRel (create : Except String Unit)
      (spawn : SpawnCmd → Except String Pid) (s res : Sys)
      (h : (releaseSetup create spawn s).2 = .ok res) :
      AppStep ⟨.boot, s⟩ ⟨.running, res⟩
  | winDev (ok : Bool) (e : WinEvent) (s : Sys) :
      AppStep ⟨.running, s⟩ ⟨.running, (devOnWindowEvent ok e s).sys⟩
  | winRel (ok : Bool) (e : WinEvent) (s : Sys) :
      AppStep ⟨.running, s⟩ ⟨.running, (relOnWindowEvent ok e s).sys⟩
  | env (ph : Phase) (s : Sys) (t : ProcTable) :
      AppStep ⟨ph, s⟩ ⟨ph, { s with procs := t }⟩

/-- Initial app state: the `ApiState` slot is created empty
(`Mutex::new(None)`). -/
def initApp : App := ⟨.boot, { tracked := none, procs := [] }⟩

/-- App states reachable from the initial state. -/
def ReachableApp (a : App) : Prop := Relation.ReflTransGen AppStep initApp a

/-- Spec-side operation, from the spec's words: "a single
subprocess-spawn-and-kill operation" — spawn one command and track its
handle, failure being fatal with the given message. -/
def spawnThenTrack (cmd : SpawnCmd) (spawn : SpawnCmd → Except String Pid)
    (failMsg : String) (s : Sys) : List SpawnCmd × Except String Sys :=
  match spawn cmd with
  | .error _ => ([cmd], .error failMsg)
  | .ok pid => ([cmd], .ok { s with tracked := some pid })

/-- A concrete run for the shutdown claims: the tracked child has pid 100
and has itself spawned a process 101. -/
def cexSys : Sys :=
  { tracked := some 100
    procs := [{ pid := 100, parent := none }, { pid := 101, parent := some 100 }] }

theorem alive_taskkill_not_inTree (t : ProcTable) (p q : Pid)
    (h : q ∈ alivePids (taskkillTree t p)) : inTreeOf t p q = false := by
  simp only [alivePids, taskkillTree, List.mem_map, List.mem_filter] at h
  obtain ⟨pr, ⟨_, hnot⟩, hpid⟩ := h
  rw [← hpid]
  simpa using hnot

/-- C1 (counterexample): with tracked child 100 whose own child is 101,
the release-branch handler on `Destroyed` leaves 101 alive even though
101 is in the process tree of 100 — the packaged branch does not
terminate the entire process tree. -/
theorem c1_release_leaves_grandchild_alive :
    inTreeOf cexSys.procs 100 101 = true ∧
    101 ∈ alivePids (relOnWindowEvent true WinEvent.Destroyed cexSys).sys.procs := by
  decide

/-- C1 (amended): when a child is tracked and the kill succeeds, the
dev-branch handler on `Destroyed` terminates the whole process tree of
the child (`taskkill /T /F`), while the release-branch handler
(`CommandChild::kill`) terminates the child process itself. -/
theorem c1_dev_kills_tree_release_kills_child (s : Sys) (p q : Pid)
    (hp : s.tracked = some p) (hq : inTreeOf s.procs p q = true) :
    q ∉ alivePids (devOnWindowEvent true WinEvent.Destroyed s).sys.procs ∧
    p ∉ alivePids (relOnWindowEvent true WinEvent.Destroyed s).sys.procs := by
  constructor
  · intro hmem
    simp only [devOnWindowEvent, hp, if_true] at hmem
    have := alive_taskkill_not_inTree s.procs p q hmem
    rw [hq] at this
    exact Bool.true_eq_false.mp this
  · intro hmem
    simp only [relOnWindowEvent, hp, if_true, killOne, alivePids,
      List.mem_map, List.mem_filter] at hmem
    obtain ⟨pr, ⟨_, hne⟩, hpid⟩ := hmem
    rw [hpid] at hne
    simp at hne

theorem c1_dev_kills_tree_release_kills_child_witness :
    cexSys.tracked = some 100 ∧ inTreeOf cexSys.procs 100 101 = true ∧
    (101 ∉ alivePids (devOnWindowEvent true WinEvent.Destroyed cexSys).sys.procs ∧
     100 ∉ alivePids (relOnWindowEvent true WinEvent.Destroyed cexSys).sys.procs) :=
  ⟨by decide, by decide,
    c1_dev_kills_tree_release_kills_child cexSys 100 101 (by decide) (by decide)⟩

/-- C2: in both branches, a successful setup spawns exactly one backend
command and stores the child handle in the `ApiState` slot. -/
theorem c2_setup_spawns_once_and_tracks (ex : String → Bool) (apiDir : String)
    (pid : Pid) (s : Sys) :
    (devSetup ex apiDir (fun _ => .ok pid) s).1.length = 1 ∧
    (devSetup ex apiDir (fun _ => .ok pid) s).2 = .ok { s with tracked := some pid } ∧
    (releaseSetup (.ok ()) (fun _ => .ok pid) s).1.length = 1 ∧
    (releaseSetup (.ok ()) (fun _ => .ok pid) s).2 = .ok { s with tracked := some pid } := by
  simp [devSetup, releaseSetup]

/-- C4: a failing spawn during setup is propagated as the fatal `expect`
panic, in both branches (and a failing sidecar-command creation in the
release branch likewise). -/
theorem c4_spawn_failure_is_fatal (ex : String → Bool) (apiDir : String)
    (msg : String) (spawn : SpawnCmd → Except String Pid) (s : Sys) :
    (devSetup ex apiDir (fun _ => .error msg) s).2 =
      .error "Failed to start API server. Is Python venv set up?" ∧
    (releaseSetup (.ok ()) (fun _ => .error msg) s).2 =
      .error "failed to spawn sidecar" ∧
    (releaseSetup (.error msg) spawn s).2 =
      .error "failed to create sidecar command" := by
  simp [devSetup, releaseSetup]

/-- C5 (counterexample): the release-branch sidecar is launched with no
arguments, so the spawned backend is not instructed to listen on port
8742 in the packaged branch. -/
theorem c5_release_has_no_port_argument :
    ¬ argAfter "--port" releaseSpawnCmd.args = some "8742" := by
  simp [argAfter, releaseSpawnCmd]

/-- C5 (amended): the dev branch instructs the backend via the `--port`
argument to listen on the fixed port 8742; the packaged branch launches
the sidecar with an empty argument list, passing no port instruction. -/
theorem c5_port_8742_dev_only (python : String) :
    argAfter "--port" (devSpawnCmd python).args = some "8742" ∧
    releaseSpawnCmd.args = [] := by
  exact ⟨by simp only [devSpawnCmd]; decide, rfl⟩

/-- C3: the `ApiState` slot is a single `Option` cell, setup fills it only
from the boot phase, and so in every reachable app state the number of
tracked child handles is zero or one (and before setup it is zero). -/
theorem c3_at_most_one_tracked (a : App) (h : ReachableApp a) :
    trackedCount a.sys.tracked ≤ 1 ∧
    (a.phase = Phase.boot → a.sys.tracked = none) := by
  refine ⟨?_, ?_⟩
  · cases a.sys.tracked <;> simp [trackedCount]
  · induction h with
    | refl => intro _; rfl
    | tail _ hstep ih =>
      cases hstep with
      | setupDev ex apiDir spawn s res hres => intro hph; cases hph
      | setupRel create spawn s res hres => intro hph; cases hph
      | winDev ok e s => intro hph; cases hph
      | winRel ok e s => intro hph; cases hph
      | env ph s t => intro hph; exact ih hph

theorem c3_at_most_one_tracked_witness :
    trackedCount initApp.sys.tracked ≤ 1 ∧
    (initApp.phase = Phase.boot → initApp.sys.tracked = none) :=
  c3_at_most_one_tracked initApp Relation.ReflTransGen.refl

/-- C6: the two build-mode branches are each an instance of the one
spawn-then-track operation — the dev branch with the resolved Python
interpreter running uvicorn directly, the packaged branch with the
bundled sidecar executable `axiome-api`. -/
theorem c6_both_branches_spawn_then_track (ex : String → Bool) (apiDir : String)
    (spawn : SpawnCmd → Except String Pid) (s : Sys) :
    devSetup ex apiDir spawn s =
      spawnThenTrack (devSpawnCmd (resolvePython ex apiDir)) spawn
        "Failed to start API server. Is Python venv set up?" s ∧
    releaseSetup (.ok ()) spawn s =
      spawnThenTrack releaseSpawnCmd spawn "failed to spawn sidecar" s ∧
    (devSpawnCmd (resolvePython ex apiDir)).args =
      ["-m", "uvicorn", "app.main:app", "--reload", "--port", "8742"] ∧
    (devSpawnCmd (resolvePython ex apiDir)).isSidecar = false ∧
    releaseSpawnCmd.program = "axiome-api" ∧
    releaseSpawnCmd.isSidecar = true := by
  refine ⟨?_, ?_, rfl, rfl, rfl, rfl⟩
  · cases hsp : spawn (devSpawnCmd (resolvePython ex apiDir)) <;>
      simp [devSetup, spawnThenTrack, hsp]
  · cases hsp : spawn releaseSpawnCmd <;>
      simp [releaseSetup, spawnThenTrack, hsp]

/-- C7: the shutdown handler takes the handle out of the state before
killing, so after one `Destroyed` event the slot is `none`, and a second
`Destroyed` event issues no kill and leaves the state unchanged, in both
branches. -/
theorem c7_destroy_handler_idempotent (ok okn : Bool) (s : Sys) :
    (devOnWindowEvent ok WinEvent.Destroyed s).sys.tracked = none ∧
    devOnWindowEvent okn WinEvent.Destroyed (devOnWindowEvent ok WinEvent.Destroyed s).sys =
      { sys := (devOnWindowEvent ok WinEvent.Destroyed s).sys, killed := none } ∧
    (relOnWindowEvent ok WinEvent.Destroyed s).sys.tracked = none ∧
    relOnWindowEvent okn WinEvent.Destroyed (relOnWindowEvent ok WinEvent.Destroyed s).sys =
      { sys := (relOnWindowEvent ok WinEvent.Destroyed s).sys, killed := none } := by
  cases hs : s.tracked <;> simp [devOnWindowEvent, relOnWindowEvent, hs]

/-- C8: the handler's outcome (cleared slot, kill issued) is the same
whether the kill operation succeeds or fails, since the kill result is
discarded; and on a state with no tracked child the handler performs no
action at all, for every window event and in both branches. -/
theorem c8_handler_ignores_kill_result (ok : Bool) (e : WinEvent)
    (s : Sys) (t : ProcTable) :
    (devOnWindowEvent ok WinEvent.Destroyed s).sys.tracked =
      (devOnWindowEvent (!ok) WinEvent.Destroyed s).sys.tracked ∧
    (devOnWindowEvent ok WinEvent.Destroyed s).killed =
      (devOnWindowEvent (!ok) WinEvent.Destroyed s).killed ∧
    (relOnWindowEvent ok WinEvent.Destroyed s).sys.tracked =
      (relOnWindowEvent (!ok) WinEvent.Destroyed s).sys.tracked ∧
    (relOnWindowEvent ok WinEvent.Destroyed s).killed =
      (relOnWindowEvent (!ok) WinEvent.Destroyed s).killed ∧
    devOnWindowEvent ok e { tracked := none, procs := t } =
      { sys := { tracked := none, procs := t }, killed := none } ∧
    relOnWindowEvent ok e { tracked := none, procs := t } =
      { sys := { tracked := none, procs := t }, killed := none } := by
  refine ⟨?_, ?_, ?_, ?_, ?_, ?_⟩ <;>
    cases e <;> cases hs : s.tracked <;>
      simp [devOnWindowEvent, relOnWindowEvent, hs]

/-- C9: the dev branch resolves the Python interpreter by checking
`venv310/Scripts/python.exe`, `venv/Scripts/python.exe`,
`.venv/Scripts/python.exe` under the API directory in that order, taking
the first that exists, and falling back to the bare command `python`. -/
theorem c9_python_resolution_order (ex : String → Bool) (apiDir : String) :
    resolvePython ex apiDir =
      (if ex (pathJoin (pathJoin (pathJoin apiDir "venv310") "Scripts") "python.exe") then
        pathJoin (pathJoin (pathJoin apiDir "venv310") "Scripts") "python.exe"
      else if ex (pathJoin (pathJoin (pathJoin apiDir "venv") "Scripts") "python.exe") then
        pathJoin (pathJoin (pathJoin apiDir "venv") "Scripts") "python.exe"
      else if ex (pathJoin (pathJoin (pathJoin apiDir ".venv") "Scripts") "python.exe") then
        pathJoin (pathJoin (pathJoin apiDir ".venv") "Scripts") "python.exe"
      else "python") := by
  cases h1 : ex (pathJoin (pathJoin (pathJoin apiDir "venv310") "Scripts") "python.exe") <;>
    cases h2 : ex (pathJoin (pathJoin (pathJoin apiDir "venv") "Scripts") "python.exe") <;>
      cases h3 : ex (pathJoin (pathJoin (pathJoin apiDir ".venv") "Scripts") "python.exe") <;>
        simp [resolvePython, venvCandidates, List.find?, h1, h2, h3]
